import Mathlib

/-!
Shallow embedding of `pm_auto/services/oled_service.py` (OLEDService):
the display-cycle state machine, its button handling, configuration
updates, the logo frame store and the stop sequence.

Time is modelled by rationals (the Python code uses `time.time()` floats
and integer/float durations; all comparisons in the code are order
comparisons, faithfully mirrored on `ℚ`).  Rendering and logging are
modelled as an emitted list of `Action`s; the SSD1306 renderer itself is
out of scope (an external collaborator), only the calls the service makes
to it are recorded.
-/

namespace PmAutoOled

/-- A monochrome frame: rows of boolean cells (numpy boolean array of
shape (64, 128) in the source). -/
abbrev Bitmap := List (List Bool)

/-- `OLEDPage` enum from `oled_service.py`. -/
inductive OLEDPage where
  | POWER_OFF
  | ALL_INFO
  | LOGO
  | GREETING
  | SERVER_INFO
  | CYCLE_INFO
deriving DecidableEq, Repr

/-- The `self.button` slot: `False` (no event), the string
`'single_click'`, or any other truthy value (consumed with no effect). -/
inductive ButtonEvent where
  | none
  | single_click
  | other
deriving DecidableEq, Repr

/-- A Python value appearing in a configuration dict. -/
inductive CfgVal where
  | str (s : String)
  | num (q : ℚ)
  | bool (b : Bool)
deriving DecidableEq, Repr

/-- Python truthiness of a configuration value (`if config['oled_enable']:`). -/
def CfgVal.truthy : CfgVal → Bool
  | .str s => s ≠ ""
  | .num q => q ≠ 0
  | .bool b => b

/-- Observable calls the service makes: renderer operations and log lines. -/
inductive Action where
  | clear
  | display
  | off
  | setRotation (v : CfgVal)
  | drawPowerOff
  | drawLogo (frame : Bitmap)
  | drawTextLogo (name : String)
  | drawGreeting
  | drawServerInfo
  | infoPage (i : Nat)
  | logError (msg : String)
  | logWarning (msg : String)
  | logInfo (msg : String)
deriving DecidableEq, Repr

/-- The three info page renderers of the loop:
`info_pages = [oled_page_performance, oled_page_ips, oled_page_disk]`. -/
inductive InfoPage where
  | performance
  | ips
  | disk
deriving DecidableEq, Repr

def info_pages : List InfoPage := [.performance, .ips, .disk]

/-- Python list indexing `info_pages[page_index]` (raises when out of
bounds, hence `Option`). -/
def info_page_at (i : Nat) : Option InfoPage := info_pages.get? i

/-- `INTERVAL = 1` (module constant, refresh period of the Info phase). -/
def INTERVAL : ℚ := 1

/-- Mutable state of `OLEDService` visible to the worker loop, together
with the loop-local variables (`page_index`, `last_refresh_time`,
`logo_drawn`). -/
structure OLEDState where
  wake_flag : Bool
  button : ButtonEvent
  wake_start_time : ℚ
  current_page : OLEDPage
  cycle_state : Nat
  cycle_state_start_time : ℚ
  last_cycle_time : ℚ
  page_index : Nat
  last_refresh_time : ℚ
  logo_drawn : Bool
  running : Bool
  sleep_timeout : ℚ
  cycle_interval : ℚ
  greeting_duration : ℚ
  server_info_duration : ℚ
  info_duration : ℚ
  logo_frame : Option Bitmap
  server_name : String
deriving DecidableEq, Repr

/-- `wake()`: reset `wake_start_time` to now, set the wake flag. -/
def wake (s : OLEDState) (now : ℚ) : OLEDState :=
  { s with wake_start_time := now, wake_flag := true }

/-- `sleep()`: clear the wake flag, clear the framebuffer and present it
(blank screen). -/
def sleepOp (s : OLEDState) : OLEDState × List Action :=
  ({ s with wake_flag := false }, [Action.clear, Action.display])

/-- `show_shutdown_screen(reason)`: log the reason, latch the page to
`POWER_OFF`, and `wake()`. -/
def show_shutdown_screen (s : OLEDState) (reason : String) (now : ℚ) :
    OLEDState × List Action :=
  (wake { s with current_page := OLEDPage.POWER_OFF } now,
   [Action.logInfo reason])

/-- Button handling at the top of each loop iteration
(`oled_service.py` lines 384-394): a pending `single_click` either wakes
the display (when asleep) or advances the info page index modulo
`len(info_pages)` and renders that page immediately (when awake); either
way the event is consumed and `wake_start_time` is reset.  Any other
truthy event is consumed with no effect. -/
def handleButton (s : OLEDState) (now : ℚ) : OLEDState × List Action :=
  if s.button = ButtonEvent.single_click then
    if s.wake_flag = false then
      ({ s with wake_flag := true, button := ButtonEvent.none,
                wake_start_time := now }, [])
    else
      let pi := (s.page_index + 1) % info_pages.length
      ({ s with page_index := pi, button := ButtonEvent.none,
                wake_start_time := now }, [Action.infoPage pi])
  else if s.button = ButtonEvent.other then
    ({ s with button := ButtonEvent.none }, [])
  else
    (s, [])

/-- The display-cycle logic of one loop iteration
(`oled_service.py` lines 406-463): LOGO holds until
`now - last_cycle_time ≥ cycle_interval`, GREETING holds
`greeting_duration`, SERVER INFO holds `server_info_duration` (and resets
`page_index` on exit), SYSTEM INFO refreshes the current info page every
`INTERVAL` and after `info_duration` returns to LOGO, resetting
`last_cycle_time`. -/
def cycleStep (s : OLEDState) (now : ℚ) : OLEDState × List Action :=
  let time_since_cycle := now - s.last_cycle_time
  let time_in_state := now - s.cycle_state_start_time
  if s.cycle_state = 0 then
    let drawn :=
      if s.logo_drawn = false then
        match s.logo_frame with
        | some f => ({ s with logo_drawn := true }, [Action.drawLogo f])
        | none =>
          ({ s with logo_drawn := true }, [Action.drawTextLogo s.server_name])
      else (s, [])
    if time_since_cycle ≥ s.cycle_interval then
      ({ drawn.1 with cycle_state := 1, cycle_state_start_time := now,
                      logo_drawn := false }, drawn.2)
    else drawn
  else if s.cycle_state = 1 then
    let acts := if time_in_state < (1 : ℚ)/10 then [Action.drawGreeting] else []
    if time_in_state ≥ s.greeting_duration then
      ({ s with cycle_state := 2, cycle_state_start_time := now }, acts)
    else (s, acts)
  else if s.cycle_state = 2 then
    let acts := if time_in_state < (1 : ℚ)/10 then [Action.drawServerInfo] else []
    if time_in_state ≥ s.server_info_duration then
      ({ s with cycle_state := 3, cycle_state_start_time := now,
                page_index := 0 }, acts)
    else (s, acts)
  else if s.cycle_state = 3 then
    let refreshed :=
      if now - s.last_refresh_time > INTERVAL then
        ({ s with last_refresh_time := now }, [Action.infoPage s.page_index])
      else (s, [])
    if time_in_state ≥ s.info_duration then
      ({ refreshed.1 with cycle_state := 0, last_cycle_time := now,
                          cycle_state_start_time := now, logo_drawn := false },
       refreshed.2)
    else refreshed
  else (s, [])

/-- One iteration of the worker loop body (`oled_service.py` lines
380-470): button handling, then the power-off latch (render `POWER_OFF`
and skip the rest), then the asleep short-circuit, then the display
cycle, then the sleep timeout. -/
def tick (s : OLEDState) (now : ℚ) : OLEDState × List Action :=
  let b := handleButton s now
  if b.1.current_page = OLEDPage.POWER_OFF then
    (b.1, b.2 ++ [Action.drawPowerOff])
  else if b.1.wake_flag = false then
    b
  else
    let c := cycleStep b.1 now
    if c.1.sleep_timeout > 0 ∧ now - c.1.wake_start_time > c.1.sleep_timeout then
      let sl := sleepOp c.1
      (sl.1, b.2 ++ c.2 ++ sl.2)
    else
      (c.1, b.2 ++ c.2)

/-- Run the `while self.running` loop over a list of tick times: each
iteration first checks the running flag and stops as soon as it is
cleared. -/
def runTicks (s : OLEDState) : List ℚ → OLEDState × List Action
  | [] => (s, [])
  | t :: ts =>
    if s.running = true then
      let st := tick s t
      let rest := runTicks st.1 ts
      (rest.1, st.2 ++ rest.2)
    else (s, [])

/-- `loop()` (lines 363-470): initialise the loop locals, bail out with a
single logged error when the OLED is missing or not ready (the function
returns, processing no tick), otherwise reset `last_cycle_time` and run
the polling loop. -/
def loop (ready : Bool) (s : OLEDState) (t0 : ℚ) (times : List ℚ) :
    OLEDState × List Action :=
  if ready = false then
    (s, [Action.logError "OLED service not ready"])
  else
    let s0 := { s with page_index := 0, last_refresh_time := 0,
                       logo_drawn := false, last_cycle_time := t0 }
    let r := runTicks s0 times
    (r.1, Action.logInfo "OLED display cycle started" :: r.2)

/-- The final renderer calls of `stop()` (lines 486-490): executed only
when the OLED exists and is ready. -/
def stopActions (ready : Bool) : List Action :=
  if ready then [Action.clear, Action.display, Action.off] else []

/-- `stop()` (lines 481-490): clear the running flag, join the worker
(which observes the flag at its next iteration boundary and exits,
producing no further actions), then perform the final
clear + present + power-down sequence once. -/
def stop (ready : Bool) (s : OLEDState) (pending : List ℚ) :
    OLEDState × List Action :=
  let s1 := { s with running := false }
  let w := runTicks s1 pending
  (w.1, w.2 ++ stopActions ready)

/-! ### Configuration updates (`update_config`, lines 133-167) -/

/-- The fields `update_config` can write.  Fields only set by
`update_config` and never in `__init__` (`video_enabled`, `video_fps`,
`info_display_interval`, `info_display_duration`) are `Option`-valued:
`none` models the Python attribute not existing yet.  Unvalidated fields
store the raw dict value, as Python does. -/
structure ConfigState where
  temperature_unit : String
  disk_mode : CfgVal
  ip_interface : CfgVal
  sleep_timeout : CfgVal
  wake_flag : Bool
  wake_start_time : ℚ
  video_enabled : Option CfgVal
  video_fps : Option CfgVal
  info_display_interval : Option CfgVal
  info_display_duration : Option CfgVal
deriving DecidableEq, Repr

/-- A configuration dict, as the association list of its items (keys are
unique in a Python dict; lookup ignores order). -/
abbrev Config := List (String × CfgVal)

/-- `key in config` / `config[key]` on the dict model. -/
def lookupCfg (cfg : Config) (k : String) : Option CfgVal :=
  (cfg.find? (fun p => p.1 == k)).map Prod.snd

/-- The configuration keys `update_config` recognizes. -/
def recognizedKeys : List String :=
  ["temperature_unit", "oled_rotation", "oled_disk",
   "oled_network_interface", "oled_sleep_timeout", "oled_enable",
   "video_enabled", "video_fps", "info_display_interval",
   "info_display_duration"]

/-- The `oled_rotation` block: the value is forwarded to the renderer's
`set_rotation`, no service field changes. -/
def apply_rotation (s : ConfigState) (cfg : Config) : ConfigState × List Action :=
  match lookupCfg cfg "oled_rotation" with
  | some v => (s, [Action.setRotation v])
  | none => (s, [])

/-- The `oled_disk` block. -/
def apply_disk (s : ConfigState) (cfg : Config) : ConfigState :=
  match lookupCfg cfg "oled_disk" with
  | some v => { s with disk_mode := v }
  | none => s

/-- The `oled_network_interface` block. -/
def apply_network (s : ConfigState) (cfg : Config) : ConfigState :=
  match lookupCfg cfg "oled_network_interface" with
  | some v => { s with ip_interface := v }
  | none => s

/-- The `oled_sleep_timeout` block. -/
def apply_sleep_timeout (s : ConfigState) (cfg : Config) : ConfigState :=
  match lookupCfg cfg "oled_sleep_timeout" with
  | some v => { s with sleep_timeout := v }
  | none => s

/-- The `oled_enable` block: a truthy value calls `wake()`, a falsy one
calls `sleep()` (which also clears and presents the framebuffer). -/
def apply_enable (s : ConfigState) (cfg : Config) (now : ℚ) :
    ConfigState × List Action :=
  match lookupCfg cfg "oled_enable" with
  | some v =>
    if v.truthy then
      ({ s with wake_flag := true, wake_start_time := now }, [])
    else
      ({ s with wake_flag := false }, [Action.clear, Action.display])
  | none => (s, [])

/-- The `video_enabled` block. -/
def apply_video_enabled (s : ConfigState) (cfg : Config) : ConfigState :=
  match lookupCfg cfg "video_enabled" with
  | some v => { s with video_enabled := some v }
  | none => s

/-- The `video_fps` block. -/
def apply_video_fps (s : ConfigState) (cfg : Config) : ConfigState :=
  match lookupCfg cfg "video_fps" with
  | some v => { s with video_fps := some v }
  | none => s

/-- The `info_display_interval` block. -/
def apply_info_interval (s : ConfigState) (cfg : Config) : ConfigState :=
  match lookupCfg cfg "info_display_interval" with
  | some v => { s with info_display_interval := some v }
  | none => s

/-- The `info_display_duration` block. -/
def apply_info_duration (s : ConfigState) (cfg : Config) : ConfigState :=
  match lookupCfg cfg "info_display_duration" with
  | some v => { s with info_display_duration := some v }
  | none => s

/-- The body of `update_config` after the `temperature_unit` block:
each recognized key, when present, is applied in source order. -/
def update_config_rest (s : ConfigState) (cfg : Config) (now : ℚ) :
    ConfigState × List Action :=
  let r := apply_rotation s cfg
  let s1 := apply_disk r.1 cfg
  let s2 := apply_network s1 cfg
  let s3 := apply_sleep_timeout s2 cfg
  let e := apply_enable s3 cfg now
  let s4 := apply_video_enabled e.1 cfg
  let s5 := apply_video_fps s4 cfg
  let s6 := apply_info_interval s5 cfg
  let s7 := apply_info_duration s6 cfg
  (s7, r.2 ++ e.2)

/-- `update_config(config)` (lines 133-167).  The `temperature_unit`
block runs first: a present value not in `['C', 'F']` logs an error and
`return`s, so nothing else in the same update is applied. -/
def update_config (s : ConfigState) (cfg : Config) (now : ℚ) :
    ConfigState × List Action :=
  match lookupCfg cfg "temperature_unit" with
  | some v =>
    if v = CfgVal.str "C" ∨ v = CfgVal.str "F" then
      update_config_rest
        { s with temperature_unit := if v = CfgVal.str "C" then "C" else "F" }
        cfg now
    else
      (s, [Action.logError "Invalid temperature unit"])
  | none => update_config_rest s cfg now

/-! ### Frame store (`_load_logo_frame`, lines 103-131) -/

/-- The on-disk frame asset as the loader sees it: file absent, file
present but `np.load`/key access raises, or a parsed `frames` array. -/
inductive FrameAsset where
  | absent
  | malformed
  | frames (l : List Bitmap)
deriving DecidableEq, Repr

/-- The body of the `try:` block: `np.load`, `data['frames']`,
`frames[0]`.  Raises (returns `.error`) when the file is malformed or the
frame array is empty; otherwise yields frame 0. -/
def parse_frames : FrameAsset → Except String Bitmap
  | .absent => .error "file absent"
  | .malformed => .error "Failed to load logo frame"
  | .frames [] => .error "Failed to load logo frame"
  | .frames (f :: _) => .ok f

/-- `_load_logo_frame`: a missing file logs a warning and leaves the logo
absent; a parse failure is caught, logged as an error, and leaves the
logo absent; success stores frame 0.  Total: no exception escapes. -/
def load_logo_frame (a : FrameAsset) : Option Bitmap × List Action :=
  match a with
  | .absent => (none, [Action.logWarning "No logo frames file found"])
  | .malformed =>
    match parse_frames FrameAsset.malformed with
    | .ok f => (some f, [Action.logInfo "Loaded logo frame"])
    | .error e => (none, [Action.logError e])
  | .frames l =>
    match parse_frames (FrameAsset.frames l) with
    | .ok f => (some f, [Action.logInfo "Loaded logo frame"])
    | .error e => (none, [Action.logError e])

/-! ### Default states (`__init__`, lines 45-97, and `OLED_DEFAULT_CONFIG`) -/

/-- The service state right after `__init__` with the default
configuration, started at clock 0 (no logo asset loaded). -/
def defaultState : OLEDState :=
  { wake_flag := true
    button := ButtonEvent.none
    wake_start_time := 0
    current_page := OLEDPage.LOGO
    cycle_state := 0
    cycle_state_start_time := 0
    last_cycle_time := 0
    page_index := 0
    last_refresh_time := 0
    logo_drawn := false
    running := true
    sleep_timeout := 0
    cycle_interval := 60
    greeting_duration := 3
    server_info_duration := 5
    info_duration := 8
    logo_frame := none
    server_name := "FALCON 1" }

/-- The configuration-visible state right after `__init__` with the
default configuration. -/
def defaultConfigState : ConfigState :=
  { temperature_unit := "C"
    disk_mode := CfgVal.str "total"
    ip_interface := CfgVal.str "all"
    sleep_timeout := CfgVal.num 0
    wake_flag := true
    wake_start_time := 0
    video_enabled := none
    video_fps := none
    info_display_interval := none
    info_display_duration := none }

/-- A service state that is asleep with a pending single_click,
otherwise defaults. -/
def asleepClickState : OLEDState :=
  { defaultState with wake_flag := false, button := ButtonEvent.single_click }

/-- An awake service state with a pending single_click, otherwise
defaults. -/
def awakeClickState : OLEDState :=
  { defaultState with button := ButtonEvent.single_click }

/-- A service state that is awake with the sleep timeout configured,
otherwise defaults. -/
def timeoutState : OLEDState :=
  { defaultState with sleep_timeout := 10 }

/-- A two-pixel sample frame used in witnesses. -/
def sampleFrame : Bitmap := [[true, false], [false, true]]

/-- A frame asset holding exactly one frame. -/
def sampleAsset : FrameAsset := FrameAsset.frames [sampleFrame]

/-- The default state whose logo slot was filled by loading
`sampleAsset`. -/
def logoLoadedState : OLEDState :=
  { defaultState with logo_frame := (load_logo_frame sampleAsset).1 }

/-- The default state after attempting to load an absent asset. -/
def logoAbsentState : OLEDState :=
  { defaultState with logo_frame := (load_logo_frame FrameAsset.absent).1 }

/-- A service state sitting in the Info phase (`cycle_state = 3`) with a
given info-page index, info page just refreshed, otherwise defaults. -/
def infoPhaseState (pi : Nat) : OLEDState :=
  { defaultState with cycle_state := 3, page_index := pi,
                      last_refresh_time := 8 }

/-- A service state sitting in the ServerInfo phase (`cycle_state = 2`)
with a given info-page index, otherwise defaults. -/
def serverPhaseState (pi : Nat) : OLEDState :=
  { defaultState with cycle_state := 2, page_index := pi }

/-! ## Helper lemmas -/

theorem lookupCfg_cons_ne (k kq : String) (v : CfgVal) (cfg : Config)
    (h : k ≠ kq) : lookupCfg ((k, v) :: cfg) kq = lookupCfg cfg kq := by
  simp [lookupCfg, List.find?_cons, h]

theorem apply_rotation_fst (s : ConfigState) (cfg : Config) :
    (apply_rotation s cfg).1 = s := by
  unfold apply_rotation; cases lookupCfg cfg "oled_rotation" <;> rfl

theorem apply_network_disk_mode (s : ConfigState) (cfg : Config) :
    (apply_network s cfg).disk_mode = s.disk_mode := by
  unfold apply_network; cases lookupCfg cfg "oled_network_interface" <;> rfl

theorem apply_sleep_timeout_disk_mode (s : ConfigState) (cfg : Config) :
    (apply_sleep_timeout s cfg).disk_mode = s.disk_mode := by
  unfold apply_sleep_timeout; cases lookupCfg cfg "oled_sleep_timeout" <;> rfl

theorem apply_enable_disk_mode (s : ConfigState) (cfg : Config) (now : ℚ) :
    (apply_enable s cfg now).1.disk_mode = s.disk_mode := by
  unfold apply_enable
  cases lookupCfg cfg "oled_enable" with
  | none => rfl
  | some v => cases hv : v.truthy <;> simp [hv]

theorem apply_enable_ip_interface (s : ConfigState) (cfg : Config) (now : ℚ) :
    (apply_enable s cfg now).1.ip_interface = s.ip_interface := by
  unfold apply_enable
  cases lookupCfg cfg "oled_enable" with
  | none => rfl
  | some v => cases hv : v.truthy <;> simp [hv]

theorem apply_sleep_timeout_ip_interface (s : ConfigState) (cfg : Config) :
    (apply_sleep_timeout s cfg).ip_interface = s.ip_interface := by
  unfold apply_sleep_timeout; cases lookupCfg cfg "oled_sleep_timeout" <;> rfl

theorem apply_video_enabled_disk_mode (s : ConfigState) (cfg : Config) :
    (apply_video_enabled s cfg).disk_mode = s.disk_mode := by
  unfold apply_video_enabled; cases lookupCfg cfg "video_enabled" <;> rfl

theorem apply_video_fps_disk_mode (s : ConfigState) (cfg : Config) :
    (apply_video_fps s cfg).disk_mode = s.disk_mode := by
  unfold apply_video_fps; cases lookupCfg cfg "video_fps" <;> rfl

theorem apply_info_interval_disk_mode (s : ConfigState) (cfg : Config) :
    (apply_info_interval s cfg).disk_mode = s.disk_mode := by
  unfold apply_info_interval; cases lookupCfg cfg "info_display_interval" <;> rfl

theorem apply_info_duration_disk_mode (s : ConfigState) (cfg : Config) :
    (apply_info_duration s cfg).disk_mode = s.disk_mode := by
  unfold apply_info_duration; cases lookupCfg cfg "info_display_duration" <;> rfl

theorem apply_video_enabled_ip_interface (s : ConfigState) (cfg : Config) :
    (apply_video_enabled s cfg).ip_interface = s.ip_interface := by
  unfold apply_video_enabled; cases lookupCfg cfg "video_enabled" <;> rfl

theorem apply_video_fps_ip_interface (s : ConfigState) (cfg : Config) :
    (apply_video_fps s cfg).ip_interface = s.ip_interface := by
  unfold apply_video_fps; cases lookupCfg cfg "video_fps" <;> rfl

theorem apply_info_interval_ip_interface (s : ConfigState) (cfg : Config) :
    (apply_info_interval s cfg).ip_interface = s.ip_interface := by
  unfold apply_info_interval; cases lookupCfg cfg "info_display_interval" <;> rfl

theorem apply_info_duration_ip_interface (s : ConfigState) (cfg : Config) :
    (apply_info_duration s cfg).ip_interface = s.ip_interface := by
  unfold apply_info_duration; cases lookupCfg cfg "info_display_duration" <;> rfl

theorem update_config_rest_disk_mode (s : ConfigState) (cfg : Config) (now : ℚ)
    (d : CfgVal) (hd : lookupCfg cfg "oled_disk" = some d) :
    (update_config_rest s cfg now).1.disk_mode = d := by
  simp only [update_config_rest, apply_info_duration_disk_mode,
    apply_info_interval_disk_mode, apply_video_fps_disk_mode,
    apply_video_enabled_disk_mode, apply_enable_disk_mode,
    apply_sleep_timeout_disk_mode, apply_network_disk_mode,
    apply_rotation_fst]
  simp [apply_disk, hd]

theorem update_config_rest_ip_interface (s : ConfigState) (cfg : Config)
    (now : ℚ) (i : CfgVal)
    (hi : lookupCfg cfg "oled_network_interface" = some i) :
    (update_config_rest s cfg now).1.ip_interface = i := by
  simp only [update_config_rest, apply_info_duration_ip_interface,
    apply_info_interval_ip_interface, apply_video_fps_ip_interface,
    apply_video_enabled_ip_interface, apply_enable_ip_interface,
    apply_sleep_timeout_ip_interface]
  simp [apply_network, hi]

theorem apply_rotation_congr {cfg1 cfg2 : Config}
    (h : lookupCfg cfg1 "oled_rotation" = lookupCfg cfg2 "oled_rotation")
    (s : ConfigState) : apply_rotation s cfg1 = apply_rotation s cfg2 := by
  unfold apply_rotation; rw [h]

theorem apply_disk_congr {cfg1 cfg2 : Config}
    (h : lookupCfg cfg1 "oled_disk" = lookupCfg cfg2 "oled_disk")
    (s : ConfigState) : apply_disk s cfg1 = apply_disk s cfg2 := by
  unfold apply_disk; rw [h]

theorem apply_network_congr {cfg1 cfg2 : Config}
    (h : lookupCfg cfg1 "oled_network_interface"
       = lookupCfg cfg2 "oled_network_interface")
    (s : ConfigState) : apply_network s cfg1 = apply_network s cfg2 := by
  unfold apply_network; rw [h]

theorem apply_sleep_timeout_congr {cfg1 cfg2 : Config}
    (h : lookupCfg cfg1 "oled_sleep_timeout"
       = lookupCfg cfg2 "oled_sleep_timeout")
    (s : ConfigState) : apply_sleep_timeout s cfg1 = apply_sleep_timeout s cfg2 := by
  unfold apply_sleep_timeout; rw [h]

theorem apply_enable_congr {cfg1 cfg2 : Config}
    (h : lookupCfg cfg1 "oled_enable" = lookupCfg cfg2 "oled_enable")
    (s : ConfigState) (now : ℚ) :
    apply_enable s cfg1 now = apply_enable s cfg2 now := by
  unfold apply_enable; rw [h]

theorem apply_video_enabled_congr {cfg1 cfg2 : Config}
    (h : lookupCfg cfg1 "video_enabled" = lookupCfg cfg2 "video_enabled")
    (s : ConfigState) : apply_video_enabled s cfg1 = apply_video_enabled s cfg2 := by
  unfold apply_video_enabled; rw [h]

theorem apply_video_fps_congr {cfg1 cfg2 : Config}
    (h : lookupCfg cfg1 "video_fps" = lookupCfg cfg2 "video_fps")
    (s : ConfigState) : apply_video_fps s cfg1 = apply_video_fps s cfg2 := by
  unfold apply_video_fps; rw [h]

theorem apply_info_interval_congr {cfg1 cfg2 : Config}
    (h : lookupCfg cfg1 "info_display_interval"
       = lookupCfg cfg2 "info_display_interval")
    (s : ConfigState) : apply_info_interval s cfg1 = apply_info_interval s cfg2 := by
  unfold apply_info_interval; rw [h]

theorem apply_info_duration_congr {cfg1 cfg2 : Config}
    (h : lookupCfg cfg1 "info_display_duration"
       = lookupCfg cfg2 "info_display_duration")
    (s : ConfigState) : apply_info_duration s cfg1 = apply_info_duration s cfg2 := by
  unfold apply_info_duration; rw [h]

theorem update_config_rest_congr (s : ConfigState) (cfg1 cfg2 : Config)
    (now : ℚ)
    (h : ∀ kq, kq ∈ recognizedKeys → lookupCfg cfg1 kq = lookupCfg cfg2 kq) :
    update_config_rest s cfg1 now = update_config_rest s cfg2 now := by
  simp only [update_config_rest,
    apply_rotation_congr (h "oled_rotation" (by decide)),
    apply_disk_congr (h "oled_disk" (by decide)),
    apply_network_congr (h "oled_network_interface" (by decide)),
    apply_sleep_timeout_congr (h "oled_sleep_timeout" (by decide)),
    apply_enable_congr (h "oled_enable" (by decide)),
    apply_video_enabled_congr (h "video_enabled" (by decide)),
    apply_video_fps_congr (h "video_fps" (by decide)),
    apply_info_interval_congr (h "info_display_interval" (by decide)),
    apply_info_duration_congr (h "info_display_duration" (by decide))]

theorem update_config_congr (s : ConfigState) (cfg1 cfg2 : Config) (now : ℚ)
    (h : ∀ kq, kq ∈ recognizedKeys → lookupCfg cfg1 kq = lookupCfg cfg2 kq) :
    update_config s cfg1 now = update_config s cfg2 now := by
  unfold update_config
  rw [h "temperature_unit" (by simp [recognizedKeys])]
  cases lookupCfg cfg2 "temperature_unit" with
  | none => exact update_config_rest_congr s cfg1 cfg2 now h
  | some v =>
    by_cases hv : v = CfgVal.str "C" ∨ v = CfgVal.str "F" <;>
      simp [hv, update_config_rest_congr _ cfg1 cfg2 now h]

theorem apply_enable_sleep_timeout (s : ConfigState) (cfg : Config) (now : ℚ) :
    (apply_enable s cfg now).1.sleep_timeout = s.sleep_timeout := by
  unfold apply_enable
  cases lookupCfg cfg "oled_enable" with
  | none => rfl
  | some v => cases hv : v.truthy <;> simp [hv]

theorem apply_video_enabled_sleep_timeout (s : ConfigState) (cfg : Config) :
    (apply_video_enabled s cfg).sleep_timeout = s.sleep_timeout := by
  unfold apply_video_enabled; cases lookupCfg cfg "video_enabled" <;> rfl

theorem apply_video_fps_sleep_timeout (s : ConfigState) (cfg : Config) :
    (apply_video_fps s cfg).sleep_timeout = s.sleep_timeout := by
  unfold apply_video_fps; cases lookupCfg cfg "video_fps" <;> rfl

theorem apply_info_interval_sleep_timeout (s : ConfigState) (cfg : Config) :
    (apply_info_interval s cfg).sleep_timeout = s.sleep_timeout := by
  unfold apply_info_interval
  cases lookupCfg cfg "info_display_interval" <;> rfl

theorem apply_info_duration_sleep_timeout (s : ConfigState) (cfg : Config) :
    (apply_info_duration s cfg).sleep_timeout = s.sleep_timeout := by
  unfold apply_info_duration
  cases lookupCfg cfg "info_display_duration" <;> rfl

theorem apply_video_fps_video_enabled (s : ConfigState) (cfg : Config) :
    (apply_video_fps s cfg).video_enabled = s.video_enabled := by
  unfold apply_video_fps; cases lookupCfg cfg "video_fps" <;> rfl

theorem apply_info_interval_video_enabled (s : ConfigState) (cfg : Config) :
    (apply_info_interval s cfg).video_enabled = s.video_enabled := by
  unfold apply_info_interval
  cases lookupCfg cfg "info_display_interval" <;> rfl

theorem apply_info_duration_video_enabled (s : ConfigState) (cfg : Config) :
    (apply_info_duration s cfg).video_enabled = s.video_enabled := by
  unfold apply_info_duration
  cases lookupCfg cfg "info_display_duration" <;> rfl

theorem apply_info_interval_video_fps (s : ConfigState) (cfg : Config) :
    (apply_info_interval s cfg).video_fps = s.video_fps := by
  unfold apply_info_interval
  cases lookupCfg cfg "info_display_interval" <;> rfl

theorem apply_info_duration_video_fps (s : ConfigState) (cfg : Config) :
    (apply_info_duration s cfg).video_fps = s.video_fps := by
  unfold apply_info_duration
  cases lookupCfg cfg "info_display_duration" <;> rfl

theorem apply_info_duration_info_interval (s : ConfigState) (cfg : Config) :
    (apply_info_duration s cfg).info_display_interval
      = s.info_display_interval := by
  unfold apply_info_duration
  cases lookupCfg cfg "info_display_duration" <;> rfl

theorem apply_video_enabled_wake (s : ConfigState) (cfg : Config) :
    (apply_video_enabled s cfg).wake_flag = s.wake_flag ∧
    (apply_video_enabled s cfg).wake_start_time = s.wake_start_time := by
  unfold apply_video_enabled
  cases lookupCfg cfg "video_enabled" <;> exact ⟨rfl, rfl⟩

theorem apply_video_fps_wake (s : ConfigState) (cfg : Config) :
    (apply_video_fps s cfg).wake_flag = s.wake_flag ∧
    (apply_video_fps s cfg).wake_start_time = s.wake_start_time := by
  unfold apply_video_fps
  cases lookupCfg cfg "video_fps" <;> exact ⟨rfl, rfl⟩

theorem apply_info_interval_wake (s : ConfigState) (cfg : Config) :
    (apply_info_interval s cfg).wake_flag = s.wake_flag ∧
    (apply_info_interval s cfg).wake_start_time = s.wake_start_time := by
  unfold apply_info_interval
  cases lookupCfg cfg "info_display_interval" <;> exact ⟨rfl, rfl⟩

theorem apply_info_duration_wake (s : ConfigState) (cfg : Config) :
    (apply_info_duration s cfg).wake_flag = s.wake_flag ∧
    (apply_info_duration s cfg).wake_start_time = s.wake_start_time := by
  unfold apply_info_duration
  cases lookupCfg cfg "info_display_duration" <;> exact ⟨rfl, rfl⟩

theorem apply_disk_temperature_unit (s : ConfigState) (cfg : Config) :
    (apply_disk s cfg).temperature_unit = s.temperature_unit := by
  unfold apply_disk; cases lookupCfg cfg "oled_disk" <;> rfl

theorem apply_network_temperature_unit (s : ConfigState) (cfg : Config) :
    (apply_network s cfg).temperature_unit = s.temperature_unit := by
  unfold apply_network; cases lookupCfg cfg "oled_network_interface" <;> rfl

theorem apply_sleep_timeout_temperature_unit (s : ConfigState) (cfg : Config) :
    (apply_sleep_timeout s cfg).temperature_unit = s.temperature_unit := by
  unfold apply_sleep_timeout; cases lookupCfg cfg "oled_sleep_timeout" <;> rfl

theorem apply_enable_temperature_unit (s : ConfigState) (cfg : Config)
    (now : ℚ) :
    (apply_enable s cfg now).1.temperature_unit = s.temperature_unit := by
  unfold apply_enable
  cases lookupCfg cfg "oled_enable" with
  | none => rfl
  | some v => cases hv : v.truthy <;> simp [hv]

theorem apply_video_enabled_temperature_unit (s : ConfigState) (cfg : Config) :
    (apply_video_enabled s cfg).temperature_unit = s.temperature_unit := by
  unfold apply_video_enabled; cases lookupCfg cfg "video_enabled" <;> rfl

theorem apply_video_fps_temperature_unit (s : ConfigState) (cfg : Config) :
    (apply_video_fps s cfg).temperature_unit = s.temperature_unit := by
  unfold apply_video_fps; cases lookupCfg cfg "video_fps" <;> rfl

theorem apply_info_interval_temperature_unit (s : ConfigState) (cfg : Config) :
    (apply_info_interval s cfg).temperature_unit = s.temperature_unit := by
  unfold apply_info_interval
  cases lookupCfg cfg "info_display_interval" <;> rfl

theorem apply_info_duration_temperature_unit (s : ConfigState) (cfg : Config) :
    (apply_info_duration s cfg).temperature_unit = s.temperature_unit := by
  unfold apply_info_duration
  cases lookupCfg cfg "info_display_duration" <;> rfl

theorem update_config_rest_sleep_timeout (s : ConfigState) (cfg : Config)
    (now : ℚ) (q : CfgVal)
    (hq : lookupCfg cfg "oled_sleep_timeout" = some q) :
    (update_config_rest s cfg now).1.sleep_timeout = q := by
  simp only [update_config_rest, apply_info_duration_sleep_timeout,
    apply_info_interval_sleep_timeout, apply_video_fps_sleep_timeout,
    apply_video_enabled_sleep_timeout, apply_enable_sleep_timeout]
  simp [apply_sleep_timeout, hq]

theorem update_config_rest_video_enabled (s : ConfigState) (cfg : Config)
    (now : ℚ) (v : CfgVal) (hv : lookupCfg cfg "video_enabled" = some v) :
    (update_config_rest s cfg now).1.video_enabled = some v := by
  simp only [update_config_rest, apply_info_duration_video_enabled,
    apply_info_interval_video_enabled, apply_video_fps_video_enabled]
  simp [apply_video_enabled, hv]

theorem update_config_rest_video_fps (s : ConfigState) (cfg : Config)
    (now : ℚ) (v : CfgVal) (hv : lookupCfg cfg "video_fps" = some v) :
    (update_config_rest s cfg now).1.video_fps = some v := by
  simp only [update_config_rest, apply_info_duration_video_fps,
    apply_info_interval_video_fps]
  simp [apply_video_fps, hv]

theorem update_config_rest_info_interval (s : ConfigState) (cfg : Config)
    (now : ℚ) (v : CfgVal)
    (hv : lookupCfg cfg "info_display_interval" = some v) :
    (update_config_rest s cfg now).1.info_display_interval = some v := by
  simp only [update_config_rest, apply_info_duration_info_interval]
  simp [apply_info_interval, hv]

theorem update_config_rest_info_duration (s : ConfigState) (cfg : Config)
    (now : ℚ) (v : CfgVal)
    (hv : lookupCfg cfg "info_display_duration" = some v) :
    (update_config_rest s cfg now).1.info_display_duration = some v := by
  simp only [update_config_rest]
  simp [apply_info_duration, hv]

theorem update_config_rest_enable (s : ConfigState) (cfg : Config) (now : ℚ)
    (v : CfgVal) (hv : lookupCfg cfg "oled_enable" = some v) :
    (v.truthy = true →
      (update_config_rest s cfg now).1.wake_flag = true ∧
      (update_config_rest s cfg now).1.wake_start_time = now) ∧
    (v.truthy = false →
      (update_config_rest s cfg now).1.wake_flag = false) := by
  constructor
  · intro ht
    constructor
    · simp only [update_config_rest, apply_info_duration_wake,
        apply_info_interval_wake, apply_video_fps_wake,
        apply_video_enabled_wake]
      simp [apply_enable, hv, ht]
    · simp only [update_config_rest, apply_info_duration_wake,
        apply_info_interval_wake, apply_video_fps_wake,
        apply_video_enabled_wake]
      simp [apply_enable, hv, ht]
  · intro hf
    simp only [update_config_rest, apply_info_duration_wake,
      apply_info_interval_wake, apply_video_fps_wake,
      apply_video_enabled_wake]
    simp [apply_enable, hv, hf]

theorem update_config_rest_temperature_unit (s : ConfigState) (cfg : Config)
    (now : ℚ) :
    (update_config_rest s cfg now).1.temperature_unit
      = s.temperature_unit := by
  simp only [update_config_rest, apply_info_duration_temperature_unit,
    apply_info_interval_temperature_unit, apply_video_fps_temperature_unit,
    apply_video_enabled_temperature_unit, apply_enable_temperature_unit,
    apply_sleep_timeout_temperature_unit, apply_network_temperature_unit,
    apply_disk_temperature_unit, apply_rotation_fst]

/-! ## Claims -/

/-- C1 (counterexample): the configuration update
`{'temperature_unit': 'K', 'oled_disk': 'nvme0n1'}` contains one
out-of-domain field and one valid recognized field, yet the valid
`oled_disk` field is NOT applied: the invalid temperature unit makes
`update_config` return early, so the claim that "every other recognized
field in the same update is still applied" is false. -/
theorem C1_counterexample :
    (update_config defaultConfigState
        [("temperature_unit", CfgVal.str "K"),
         ("oled_disk", CfgVal.str "nvme0n1")] 0).1
      = defaultConfigState ∧
    (update_config defaultConfigState
        [("temperature_unit", CfgVal.str "K"),
         ("oled_disk", CfgVal.str "nvme0n1")] 0).1.disk_mode
      ≠ CfgVal.str "nvme0n1" := by
  constructor <;> decide

/-- C1 (amended): an out-of-domain `temperature_unit` is rejected with a
logged error and aborts the whole update — the state is returned
unchanged, so no other field of the same update is applied.  When
`temperature_unit` is absent or valid (`'C'` or `'F'`), every recognized
field present in the update is applied independently — `oled_disk`,
`oled_network_interface`, `oled_sleep_timeout`, the four video/info
settings, `oled_enable` (waking or sleeping the display), and the valid
temperature unit itself — and unrecognized fields are ignored (they
cause no change). -/
theorem C1_update_config_amended :
    ∀ (s : ConfigState) (cfg : Config) (now : ℚ),
      (∀ v, lookupCfg cfg "temperature_unit" = some v →
        v ≠ CfgVal.str "C" → v ≠ CfgVal.str "F" →
        update_config s cfg now
          = (s, [Action.logError "Invalid temperature unit"])) ∧
      (∀ k v, k ∉ recognizedKeys →
        update_config s ((k, v) :: cfg) now = update_config s cfg now) ∧
      (lookupCfg cfg "temperature_unit" = none ∨
       lookupCfg cfg "temperature_unit" = some (CfgVal.str "C") ∨
       lookupCfg cfg "temperature_unit" = some (CfgVal.str "F") →
        (∀ d, lookupCfg cfg "oled_disk" = some d →
          (update_config s cfg now).1.disk_mode = d) ∧
        (∀ i, lookupCfg cfg "oled_network_interface" = some i →
          (update_config s cfg now).1.ip_interface = i) ∧
        (∀ q, lookupCfg cfg "oled_sleep_timeout" = some q →
          (update_config s cfg now).1.sleep_timeout = q) ∧
        (∀ v, lookupCfg cfg "video_enabled" = some v →
          (update_config s cfg now).1.video_enabled = some v) ∧
        (∀ v, lookupCfg cfg "video_fps" = some v →
          (update_config s cfg now).1.video_fps = some v) ∧
        (∀ v, lookupCfg cfg "info_display_interval" = some v →
          (update_config s cfg now).1.info_display_interval = some v) ∧
        (∀ v, lookupCfg cfg "info_display_duration" = some v →
          (update_config s cfg now).1.info_display_duration = some v) ∧
        (∀ v, lookupCfg cfg "oled_enable" = some v →
          (v.truthy = true →
            (update_config s cfg now).1.wake_flag = true ∧
            (update_config s cfg now).1.wake_start_time = now) ∧
          (v.truthy = false →
            (update_config s cfg now).1.wake_flag = false)) ∧
        (lookupCfg cfg "temperature_unit" = some (CfgVal.str "C") →
          (update_config s cfg now).1.temperature_unit = "C") ∧
        (lookupCfg cfg "temperature_unit" = some (CfgVal.str "F") →
          (update_config s cfg now).1.temperature_unit = "F")) := by
  intro s cfg now
  refine ⟨?_, ?_, ?_⟩
  · intro v hv hC hF
    simp [update_config, hv, hC, hF]
  · intro k v hk
    apply update_config_congr
    intro kq hkq
    apply lookupCfg_cons_ne
    intro hkeq
    exact hk (hkeq ▸ hkq)
  · intro htemp
    have hmain : ∃ t : ConfigState,
        update_config s cfg now = update_config_rest t cfg now ∧
        (lookupCfg cfg "temperature_unit" = some (CfgVal.str "C") →
          t.temperature_unit = "C") ∧
        (lookupCfg cfg "temperature_unit" = some (CfgVal.str "F") →
          t.temperature_unit = "F") := by
      rcases htemp with h0 | hC | hF
      · refine ⟨s, by simp only [update_config, h0], ?_, ?_⟩
        · intro hc; exact absurd (h0.symm.trans hc) (by simp)
        · intro hf; exact absurd (h0.symm.trans hf) (by simp)
      · refine ⟨{ s with temperature_unit := "C" }, ?_, fun _ => rfl, ?_⟩
        · simp [update_config, hC]
        · intro hf; exact absurd (hC.symm.trans hf) (by decide)
      · refine ⟨{ s with temperature_unit := "F" }, ?_, ?_, fun _ => rfl⟩
        · simp [update_config, hF]
        · intro hc; exact absurd (hF.symm.trans hc) (by decide)
    obtain ⟨t, hu, htC, htF⟩ := hmain
    rw [hu]
    refine ⟨fun d hd => update_config_rest_disk_mode t cfg now d hd,
      fun i hi => update_config_rest_ip_interface t cfg now i hi,
      fun q hq => update_config_rest_sleep_timeout t cfg now q hq,
      fun v hv => update_config_rest_video_enabled t cfg now v hv,
      fun v hv => update_config_rest_video_fps t cfg now v hv,
      fun v hv => update_config_rest_info_interval t cfg now v hv,
      fun v hv => update_config_rest_info_duration t cfg now v hv,
      fun v hv => update_config_rest_enable t cfg now v hv,
      fun hc => (update_config_rest_temperature_unit t cfg now).trans (htC hc),
      fun hf => (update_config_rest_temperature_unit t cfg now).trans (htF hf)⟩

/-- C1 (witness): concrete instances of the three parts of the amended
claim — an aborting invalid update, an ignored unrecognized key, a
recognized field applied with `temperature_unit` absent, and two
recognized fields applied alongside a valid `temperature_unit`. -/
theorem C1_update_config_amended_witness :
    update_config defaultConfigState
        [("temperature_unit", CfgVal.str "K"),
         ("oled_network_interface", CfgVal.str "eth0")] 0
      = (defaultConfigState, [Action.logError "Invalid temperature unit"]) ∧
    update_config defaultConfigState
        [("bogus_key", CfgVal.num 1), ("oled_disk", CfgVal.str "sda")] 0
      = update_config defaultConfigState [("oled_disk", CfgVal.str "sda")] 0 ∧
    (update_config defaultConfigState [("oled_disk", CfgVal.str "sda")] 0).1.disk_mode
      = CfgVal.str "sda" ∧
    (update_config defaultConfigState
        [("temperature_unit", CfgVal.str "F"),
         ("oled_sleep_timeout", CfgVal.num 30)] 0).1.sleep_timeout
      = CfgVal.num 30 ∧
    (update_config defaultConfigState
        [("temperature_unit", CfgVal.str "F"),
         ("oled_sleep_timeout", CfgVal.num 30)] 0).1.temperature_unit
      = "F" := by
  refine ⟨?_, ?_, ?_, ?_, ?_⟩
  · exact (C1_update_config_amended defaultConfigState
      [("temperature_unit", CfgVal.str "K"),
       ("oled_network_interface", CfgVal.str "eth0")] 0).1
      (CfgVal.str "K") (by decide) (by decide) (by decide)
  · exact (C1_update_config_amended defaultConfigState
      [("oled_disk", CfgVal.str "sda")] 0).2.1
      "bogus_key" (CfgVal.num 1) (by decide)
  · exact ((C1_update_config_amended defaultConfigState
      [("oled_disk", CfgVal.str "sda")] 0).2.2 (by decide)).1
      (CfgVal.str "sda") (by decide)
  · exact ((C1_update_config_amended defaultConfigState
      [("temperature_unit", CfgVal.str "F"),
       ("oled_sleep_timeout", CfgVal.num 30)] 0).2.2 (by decide)).2.2.1
      (CfgVal.num 30) (by decide)
  · exact ((C1_update_config_amended defaultConfigState
      [("temperature_unit", CfgVal.str "F"),
       ("oled_sleep_timeout", CfgVal.num 30)] 0).2.2
      (by decide)).2.2.2.2.2.2.2.2.2 (by decide)

theorem handleButton_current_page (s : OLEDState) (now : ℚ) :
    (handleButton s now).1.current_page = s.current_page := by
  unfold handleButton; split_ifs <;> rfl

theorem handleButton_cycle_state (s : OLEDState) (now : ℚ) :
    (handleButton s now).1.cycle_state = s.cycle_state := by
  unfold handleButton; split_ifs <;> rfl

theorem handleButton_cycle_state_start_time (s : OLEDState) (now : ℚ) :
    (handleButton s now).1.cycle_state_start_time = s.cycle_state_start_time := by
  unfold handleButton; split_ifs <;> rfl

theorem handleButton_last_cycle_time (s : OLEDState) (now : ℚ) :
    (handleButton s now).1.last_cycle_time = s.last_cycle_time := by
  unfold handleButton; split_ifs <;> rfl

theorem handleButton_sleep_timeout (s : OLEDState) (now : ℚ) :
    (handleButton s now).1.sleep_timeout = s.sleep_timeout := by
  unfold handleButton; split_ifs <;> rfl

theorem handleButton_wake_flag_mono (s : OLEDState) (now : ℚ)
    (h : s.wake_flag = true) : (handleButton s now).1.wake_flag = true := by
  unfold handleButton; split_ifs <;> simp_all

theorem handleButton_none (s : OLEDState) (now : ℚ)
    (h : s.button = ButtonEvent.none) : handleButton s now = (s, []) := by
  unfold handleButton
  split_ifs with h1 h2 <;> simp_all

theorem cycleStep_current_page (s : OLEDState) (now : ℚ) :
    (cycleStep s now).1.current_page = s.current_page := by
  simp only [cycleStep]
  cases s.logo_frame <;> split_ifs <;> rfl

theorem cycleStep_wake_flag (s : OLEDState) (now : ℚ) :
    (cycleStep s now).1.wake_flag = s.wake_flag := by
  simp only [cycleStep]
  cases s.logo_frame <;> split_ifs <;> rfl

theorem cycleStep_wake_start_time (s : OLEDState) (now : ℚ) :
    (cycleStep s now).1.wake_start_time = s.wake_start_time := by
  simp only [cycleStep]
  cases s.logo_frame <;> split_ifs <;> rfl

theorem cycleStep_button (s : OLEDState) (now : ℚ) :
    (cycleStep s now).1.button = s.button := by
  simp only [cycleStep]
  cases s.logo_frame <;> split_ifs <;> rfl

theorem cycleStep_sleep_timeout (s : OLEDState) (now : ℚ) :
    (cycleStep s now).1.sleep_timeout = s.sleep_timeout := by
  simp only [cycleStep]
  cases s.logo_frame <;> split_ifs <;> rfl

theorem tick_current_page (s : OLEDState) (now : ℚ) :
    (tick s now).1.current_page = s.current_page := by
  simp only [tick, sleepOp]
  split_ifs <;>
    simp [cycleStep_current_page, handleButton_current_page]

theorem handleButton_button_none (s : OLEDState) (now : ℚ) :
    (handleButton s now).1.button = ButtonEvent.none := by
  unfold handleButton
  cases hb : s.button <;> split_ifs <;> simp_all

theorem tick_button_none (s : OLEDState) (now : ℚ) :
    (tick s now).1.button = ButtonEvent.none := by
  simp only [tick, sleepOp]
  split_ifs <;> simp [cycleStep_button, handleButton_button_none]

theorem runTicks_button_none (s : OLEDState) (ts : List ℚ)
    (h : s.button = ButtonEvent.none) :
    (runTicks s ts).1.button = ButtonEvent.none := by
  induction ts generalizing s with
  | nil => exact h
  | cons t ts ih =>
    simp only [runTicks]
    split_ifs
    · exact ih _ (tick_button_none s t)
    · exact h

theorem loop_ready_consumes_button (s : OLEDState) (t0 t : ℚ) (ts : List ℚ)
    (hrun : s.running = true) :
    (loop true s t0 (t :: ts)).1.button = ButtonEvent.none := by
  have h1 : (true = false) = False := by simp
  simp only [loop, h1, if_false, runTicks, hrun, eq_self_iff_true, if_true]
  exact runTicks_button_none _ _ (tick_button_none _ _)

/-- C2 (counterexample): with the renderer not ready and a pending
single_click, the worker loop returns immediately with only the logged
error: the state is untouched and the pending event is never consumed,
even though further tick times were supplied — the loop does not
continue polling.  Had the loop kept polling (as it does when the
renderer is ready, second conjunct), the first tick would have consumed
the event. -/
theorem C2_counterexample :
    loop false { defaultState with button := ButtonEvent.single_click } 0 [1, 2]
      = ({ defaultState with button := ButtonEvent.single_click },
         [Action.logError "OLED service not ready"]) ∧
    (loop true { defaultState with button := ButtonEvent.single_click } 0
        [1, 2]).1.button = ButtonEvent.none := by
  constructor
  · rfl
  · exact loop_ready_consumes_button _ 0 1 [2] rfl

/-- C2 (amended): when the OLED object is missing or not ready, the
worker loop logs "OLED service not ready" once and returns immediately:
it processes no tick, emits no render action, and leaves the service
state (including any pending button event) untouched.  The renderer
unavailability never raises, but the loop halts instead of continuing to
poll. -/
theorem C2_loop_not_ready :
    ∀ (s : OLEDState) (t0 : ℚ) (times : List ℚ),
      loop false s t0 times = (s, [Action.logError "OLED service not ready"]) := by
  intro s t0 times
  rfl

theorem handleButton_not_click (s : OLEDState) (now : ℚ)
    (h : s.button ≠ ButtonEvent.single_click) :
    (handleButton s now).1.page_index = s.page_index ∧
    (handleButton s now).2 = [] := by
  unfold handleButton; split_ifs <;> simp_all

theorem runTicks_current_page (s : OLEDState) (times : List ℚ) :
    (runTicks s times).1.current_page = s.current_page := by
  induction times generalizing s with
  | nil => rfl
  | cons t ts ih =>
    simp only [runTicks]
    split_ifs
    · exact (ih (tick s t).1).trans (tick_current_page s t)
    · rfl

/-- C3 (counterexample): while the power-off page is latched, a tick
with a pending single_click (and the display awake, as
`show_shutdown_screen` forces) still advances the info-page index from 0
to 1 and renders that info page before the PowerOff render — so "no
info-page index change" does not hold for every tick after
`show_shutdown_screen`. -/
theorem C3_counterexample :
    (tick { (show_shutdown_screen defaultState "poweroff" 0).1 with
              button := ButtonEvent.single_click } 5).1.page_index = 1 ∧
    (tick { (show_shutdown_screen defaultState "poweroff" 0).1 with
              button := ButtonEvent.single_click } 5).2
      = [Action.infoPage 1, Action.drawPowerOff] := by
  constructor <;> rfl

/-- C3 (amended): `show_shutdown_screen` latches the page to PowerOff.
While latched, every tick renders PowerOff, keeps the page latched, and
fires no cycle-phase change, no `last_cycle_time` change and no sleep
transition; on ticks with no pending single_click the info-page index is
also unchanged and PowerOff is the only render.  A pending single_click
is still consumed and (being awake) advances the info-page index and
renders that info page before PowerOff is drawn.  No sequence of ticks
exits the PowerOff page (only a service restart can). -/
theorem C3_power_off_latch :
    ∀ (s : OLEDState) (r : String) (now : ℚ),
      (show_shutdown_screen s r now).1.current_page = OLEDPage.POWER_OFF ∧
      (s.current_page = OLEDPage.POWER_OFF →
        (tick s now).1.current_page = OLEDPage.POWER_OFF ∧
        Action.drawPowerOff ∈ (tick s now).2 ∧
        (tick s now).1.cycle_state = s.cycle_state ∧
        (tick s now).1.cycle_state_start_time = s.cycle_state_start_time ∧
        (tick s now).1.last_cycle_time = s.last_cycle_time ∧
        (s.wake_flag = true → (tick s now).1.wake_flag = true) ∧
        (s.button ≠ ButtonEvent.single_click →
          (tick s now).1.page_index = s.page_index ∧
          (tick s now).2 = [Action.drawPowerOff]) ∧
        (∀ times : List ℚ,
          (runTicks s times).1.current_page = OLEDPage.POWER_OFF)) := by
  intro s r now
  constructor
  · rfl
  · intro hlatch
    have hcond : (handleButton s now).1.current_page = OLEDPage.POWER_OFF :=
      (handleButton_current_page s now).trans hlatch
    have htick : tick s now
        = ((handleButton s now).1,
           (handleButton s now).2 ++ [Action.drawPowerOff]) := by
      simp only [tick, hcond, eq_self_iff_true, if_true]
    refine ⟨?_, ?_, ?_, ?_, ?_, ?_, ?_, ?_⟩
    · rw [htick]; exact hcond
    · rw [htick]; simp
    · rw [htick]; exact handleButton_cycle_state s now
    · rw [htick]; exact handleButton_cycle_state_start_time s now
    · rw [htick]; exact handleButton_last_cycle_time s now
    · intro hw; rw [htick]; exact handleButton_wake_flag_mono s now hw
    · intro hb
      rw [htick]
      exact ⟨(handleButton_not_click s now hb).1,
        by simp [(handleButton_not_click s now hb).2]⟩
    · intro times
      exact (runTicks_current_page s times).trans hlatch

/-- C3 (witness): concrete shutdown, one subsequent tick. -/
theorem C3_power_off_latch_witness :
    (show_shutdown_screen defaultState "low battery" 0).1.current_page
      = OLEDPage.POWER_OFF ∧
    (tick (show_shutdown_screen defaultState "low battery" 0).1 1).1.current_page
      = OLEDPage.POWER_OFF ∧
    Action.drawPowerOff
      ∈ (tick (show_shutdown_screen defaultState "low battery" 0).1 1).2 := by
  have h := C3_power_off_latch (show_shutdown_screen defaultState "low battery" 0).1
    "low battery" 1
  have hl : (show_shutdown_screen defaultState "low battery" 0).1.current_page
      = OLEDPage.POWER_OFF := rfl
  exact ⟨hl, (h.2 hl).1, (h.2 hl).2.1⟩

theorem tick_awake_no_sleep (s : OLEDState) (now : ℚ)
    (hb : s.button = ButtonEvent.none)
    (hp : ¬ s.current_page = OLEDPage.POWER_OFF)
    (hw : s.wake_flag = true)
    (hs : s.sleep_timeout = 0) :
    tick s now = cycleStep s now := by
  simp only [tick, handleButton_none s now hb]
  rw [if_neg hp]
  rw [if_neg (by simp [hw])]
  rw [if_neg (by simp [cycleStep_sleep_timeout, hs])]
  simp

theorem cycleStep_logo_advance (s : OLEDState) (now : ℚ)
    (h0 : s.cycle_state = 0)
    (hge : now - s.last_cycle_time ≥ s.cycle_interval) :
    (cycleStep s now).1
      = { s with cycle_state := 1, cycle_state_start_time := now,
                 logo_drawn := false } := by
  cases hlf : s.logo_frame <;> cases hld : s.logo_drawn <;>
    simp_all [cycleStep, h0, hge]

theorem cycleStep_logo_hold (s : OLEDState) (now : ℚ)
    (h0 : s.cycle_state = 0)
    (hlt : ¬ now - s.last_cycle_time ≥ s.cycle_interval) :
    (cycleStep s now).1.cycle_state = 0 ∧
    (cycleStep s now).1.last_cycle_time = s.last_cycle_time ∧
    (cycleStep s now).1.cycle_state_start_time = s.cycle_state_start_time := by
  cases hlf : s.logo_frame <;> cases hld : s.logo_drawn <;>
    simp only [cycleStep, h0, hlf, hld, eq_self_iff_true, if_true,
      if_neg hlt] <;> simp_all

theorem cycleStep_greeting_advance (s : OLEDState) (now : ℚ)
    (h1 : s.cycle_state = 1)
    (hge : now - s.cycle_state_start_time ≥ s.greeting_duration) :
    (cycleStep s now).1
      = { s with cycle_state := 2, cycle_state_start_time := now } := by
  simp [cycleStep, h1, hge]

theorem cycleStep_greeting_hold (s : OLEDState) (now : ℚ)
    (h1 : s.cycle_state = 1)
    (hlt : ¬ now - s.cycle_state_start_time ≥ s.greeting_duration) :
    (cycleStep s now).1 = s := by
  simp [cycleStep, h1, hlt]

theorem cycleStep_server_advance (s : OLEDState) (now : ℚ)
    (h2 : s.cycle_state = 2)
    (hge : now - s.cycle_state_start_time ≥ s.server_info_duration) :
    (cycleStep s now).1
      = { s with cycle_state := 3, cycle_state_start_time := now,
                 page_index := 0 } := by
  simp [cycleStep, h2, hge]

theorem cycleStep_server_hold (s : OLEDState) (now : ℚ)
    (h2 : s.cycle_state = 2)
    (hlt : ¬ now - s.cycle_state_start_time ≥ s.server_info_duration) :
    (cycleStep s now).1 = s := by
  simp [cycleStep, h2, hlt]

theorem cycleStep_info_advance (s : OLEDState) (now : ℚ)
    (h3 : s.cycle_state = 3)
    (hge : now - s.cycle_state_start_time ≥ s.info_duration) :
    (cycleStep s now).1
      = { s with cycle_state := 0, last_cycle_time := now,
                 cycle_state_start_time := now, logo_drawn := false,
                 last_refresh_time :=
                   if now - s.last_refresh_time > INTERVAL then now
                   else s.last_refresh_time } := by
  have e0 : (s.cycle_state = 0) = False := by simp [h3]
  have e1 : (s.cycle_state = 1) = False := by simp [h3]
  have e2 : (s.cycle_state = 2) = False := by simp [h3]
  have e3 : (s.cycle_state = 3) = True := by simp [h3]
  simp only [cycleStep, e0, e1, e2, e3, if_true, if_false, if_pos hge]
  split_ifs with h <;> simp

theorem cycleStep_info_hold (s : OLEDState) (now : ℚ)
    (h3 : s.cycle_state = 3)
    (hlt : ¬ now - s.cycle_state_start_time ≥ s.info_duration) :
    (cycleStep s now).1.cycle_state = 3 ∧
    (cycleStep s now).1.cycle_state_start_time = s.cycle_state_start_time ∧
    (cycleStep s now).1.page_index = s.page_index := by
  have e0 : (s.cycle_state = 0) = False := by simp [h3]
  have e1 : (s.cycle_state = 1) = False := by simp [h3]
  have e2 : (s.cycle_state = 2) = False := by simp [h3]
  have e3 : (s.cycle_state = 3) = True := by simp [h3]
  simp only [cycleStep, e0, e1, e2, e3, if_true, if_false, if_neg hlt]
  split_ifs with h <;> simp [h3]

/-- C4: starting in the Logo phase while Awake and not latched, with no
button input, ticking the loop at the phase-boundary instants of the
simulated clock visits Greeting (`cycle_state = 1`), ServerInfo
(`cycle_state = 2`) and Info (`cycle_state = 3`) in that order, each
exactly once, and returns to Logo (`cycle_state = 0`) exactly
`cycle_interval + greeting_duration + server_info_duration +
info_duration` after `last_cycle_time`, which is then reset to that
instant.  Moreover each phase holds: any tick strictly before a phase's
boundary (`u1` in Logo, `u2` in Greeting, `u3` in ServerInfo, `u4` in
Info) leaves that phase unchanged. -/
theorem C4_cycle_rotation (s : OLEDState) (u1 u2 u3 u4 : ℚ)
    (hb : s.button = ButtonEvent.none)
    (hp : ¬ s.current_page = OLEDPage.POWER_OFF)
    (hw : s.wake_flag = true)
    (hs : s.sleep_timeout = 0)
    (h0 : s.cycle_state = 0)
    (hu1 : ¬ u1 - s.last_cycle_time ≥ s.cycle_interval)
    (hu2 : ¬ u2 - (s.last_cycle_time + s.cycle_interval) ≥ s.greeting_duration)
    (hu3 : ¬ u3 - (s.last_cycle_time + s.cycle_interval + s.greeting_duration)
        ≥ s.server_info_duration)
    (hu4 : ¬ u4 - (s.last_cycle_time + s.cycle_interval + s.greeting_duration
        + s.server_info_duration) ≥ s.info_duration) :
    ∃ s1 s2 s3 s4 : OLEDState,
      (tick s (s.last_cycle_time + s.cycle_interval)).1 = s1 ∧
      (tick s1 (s.last_cycle_time + s.cycle_interval
          + s.greeting_duration)).1 = s2 ∧
      (tick s2 (s.last_cycle_time + s.cycle_interval + s.greeting_duration
          + s.server_info_duration)).1 = s3 ∧
      (tick s3 (s.last_cycle_time + s.cycle_interval + s.greeting_duration
          + s.server_info_duration + s.info_duration)).1 = s4 ∧
      s1.cycle_state = 1 ∧ s2.cycle_state = 2 ∧ s3.cycle_state = 3 ∧
      s4.cycle_state = 0 ∧
      s4.last_cycle_time = s.last_cycle_time + s.cycle_interval
        + s.greeting_duration + s.server_info_duration + s.info_duration ∧
      (tick s u1).1.cycle_state = 0 ∧
      (tick s1 u2).1.cycle_state = 1 ∧
      (tick s2 u3).1.cycle_state = 2 ∧
      (tick s3 u4).1.cycle_state = 3 := by
  have hge1 : (s.last_cycle_time + s.cycle_interval) - s.last_cycle_time
      ≥ s.cycle_interval := by linarith
  have hge2 : (s.last_cycle_time + s.cycle_interval + s.greeting_duration)
      - (s.last_cycle_time + s.cycle_interval) ≥ s.greeting_duration := by
    linarith
  have hge3 : (s.last_cycle_time + s.cycle_interval + s.greeting_duration
        + s.server_info_duration)
      - (s.last_cycle_time + s.cycle_interval + s.greeting_duration)
      ≥ s.server_info_duration := by linarith
  have hge4 : (s.last_cycle_time + s.cycle_interval + s.greeting_duration
        + s.server_info_duration + s.info_duration)
      - (s.last_cycle_time + s.cycle_interval + s.greeting_duration
        + s.server_info_duration) ≥ s.info_duration := by linarith
  refine
    ⟨{ s with cycle_state := 1,
              cycle_state_start_time := s.last_cycle_time + s.cycle_interval,
              logo_drawn := false },
     { s with cycle_state := 2,
              cycle_state_start_time := s.last_cycle_time + s.cycle_interval
                + s.greeting_duration,
              logo_drawn := false },
     { s with cycle_state := 3,
              cycle_state_start_time := s.last_cycle_time + s.cycle_interval
                + s.greeting_duration + s.server_info_duration,
              logo_drawn := false, page_index := 0 },
     { s with cycle_state := 0,
              cycle_state_start_time := s.last_cycle_time + s.cycle_interval
                + s.greeting_duration + s.server_info_duration
                + s.info_duration,
              last_cycle_time := s.last_cycle_time + s.cycle_interval
                + s.greeting_duration + s.server_info_duration
                + s.info_duration,
              logo_drawn := false, page_index := 0,
              last_refresh_time :=
                if (s.last_cycle_time + s.cycle_interval
                      + s.greeting_duration + s.server_info_duration
                      + s.info_duration)
                    - s.last_refresh_time > INTERVAL then
                  s.last_cycle_time + s.cycle_interval + s.greeting_duration
                    + s.server_info_duration + s.info_duration
                else s.last_refresh_time },
     ?_, ?_, ?_, ?_, ?_, ?_, ?_, ?_, ?_, ?_, ?_, ?_, ?_⟩
  · rw [tick_awake_no_sleep s _ hb hp hw hs]
    exact cycleStep_logo_advance s _ h0 hge1
  · rw [tick_awake_no_sleep _ _ (by exact hb) (by exact hp) (by exact hw) (by exact hs)]
    exact cycleStep_greeting_advance _ _ (by rfl) (by exact hge2)
  · rw [tick_awake_no_sleep _ _ (by exact hb) (by exact hp) (by exact hw) (by exact hs)]
    exact cycleStep_server_advance _ _ (by rfl) (by exact hge3)
  · rw [tick_awake_no_sleep _ _ (by exact hb) (by exact hp) (by exact hw) (by exact hs)]
    exact cycleStep_info_advance _ _ (by rfl) (by exact hge4)
  · rfl
  · rfl
  · rfl
  · rfl
  · rfl
  · rw [tick_awake_no_sleep s u1 hb hp hw hs]
    exact (cycleStep_logo_hold s u1 h0 hu1).1
  · rw [tick_awake_no_sleep _ u2 (by exact hb) (by exact hp) (by exact hw) (by exact hs)]
    rw [cycleStep_greeting_hold _ u2 (by rfl) (by exact hu2)]
  · rw [tick_awake_no_sleep _ u3 (by exact hb) (by exact hp) (by exact hw) (by exact hs)]
    rw [cycleStep_server_hold _ u3 (by rfl) (by exact hu3)]
  · rw [tick_awake_no_sleep _ u4 (by exact hb) (by exact hp) (by exact hw) (by exact hs)]
    exact (cycleStep_info_hold _ u4 (by rfl) (by exact hu4)).1

/-- C4 (witness): the default configuration (60 s cycle interval, 3 s
greeting, 5 s server info, 8 s info), ticked at the boundary instants,
rotates Logo → Greeting → ServerInfo → Info → Logo; a tick at 30 s stays
in Logo. -/
theorem C4_cycle_rotation_witness :
    (tick defaultState
        (defaultState.last_cycle_time
          + defaultState.cycle_interval)).1.cycle_state = 1 ∧
    (tick (tick defaultState
        (defaultState.last_cycle_time + defaultState.cycle_interval)).1
        (defaultState.last_cycle_time + defaultState.cycle_interval
          + defaultState.greeting_duration)).1.cycle_state = 2 ∧
    (tick (tick (tick defaultState
        (defaultState.last_cycle_time + defaultState.cycle_interval)).1
        (defaultState.last_cycle_time + defaultState.cycle_interval
          + defaultState.greeting_duration)).1
        (defaultState.last_cycle_time + defaultState.cycle_interval
          + defaultState.greeting_duration
          + defaultState.server_info_duration)).1.cycle_state = 3 ∧
    (tick (tick (tick (tick defaultState
        (defaultState.last_cycle_time + defaultState.cycle_interval)).1
        (defaultState.last_cycle_time + defaultState.cycle_interval
          + defaultState.greeting_duration)).1
        (defaultState.last_cycle_time + defaultState.cycle_interval
          + defaultState.greeting_duration
          + defaultState.server_info_duration)).1
        (defaultState.last_cycle_time + defaultState.cycle_interval
          + defaultState.greeting_duration + defaultState.server_info_duration
          + defaultState.info_duration)).1.cycle_state = 0 ∧
    (tick defaultState 30).1.cycle_state = 0 := by
  obtain ⟨s1, s2, s3, s4, e1, e2, e3, e4, c1, c2, c3, c4, cl, hA, hB, hC, hD⟩ :=
    C4_cycle_rotation defaultState 30 61 67 74 rfl (by decide) rfl rfl rfl
      (by norm_num [defaultState]) (by norm_num [defaultState])
      (by norm_num [defaultState]) (by norm_num [defaultState])
  refine ⟨?_, ?_, ?_, ?_, ?_⟩
  · rw [e1]; exact c1
  · rw [e1, e2]; exact c2
  · rw [e1, e2, e3]; exact c3
  · rw [e1, e2, e3, e4]; exact c4
  · exact hA

theorem cycleStep_page_index_state0 (s : OLEDState) (now : ℚ)
    (h0 : s.cycle_state = 0) :
    (cycleStep s now).1.page_index = s.page_index := by
  simp only [cycleStep, h0, eq_self_iff_true, if_true]
  cases hlf : s.logo_frame <;> split_ifs <;> rfl

theorem cycleStep_page_index_state1 (s : OLEDState) (now : ℚ)
    (h1 : s.cycle_state = 1) :
    (cycleStep s now).1.page_index = s.page_index := by
  have e0 : (s.cycle_state = 0) = False := by simp [h1]
  have e1 : (s.cycle_state = 1) = True := by simp [h1]
  simp only [cycleStep, e0, e1, if_true, if_false]
  split_ifs <;> rfl

/-- C5 (counterexample): a tick that fires the Info→Logo transition
(`cycle_state` 3 → 0 at the `info_duration` boundary) with the info-page
index at 1 leaves the index at 1 — the transition does not reset the
InfoPageSet index to 0, contrary to the claim. -/
theorem C5_counterexample :
    (tick (infoPhaseState 1) 8).1.cycle_state = 0 ∧
    (tick (infoPhaseState 1) 8).1.page_index = 1 := by
  have ht : tick (infoPhaseState 1) 8 = cycleStep (infoPhaseState 1) 8 :=
    tick_awake_no_sleep _ _ rfl (by decide) rfl rfl
  have hc := cycleStep_info_advance (infoPhaseState 1) 8 rfl
    (by norm_num [infoPhaseState, defaultState])
  rw [ht, hc]
  exact ⟨rfl, rfl⟩

/-- C5 (amended): the Info→Logo transition (after `info_duration`)
resets `last_cycle_time` (and `cycle_state_start_time`) to the current
time but leaves the InfoPageSet index untouched; the reset of the index
to 0 instead happens at the earlier ServerInfo→Info transition (i.e. on
entering the Info phase).  The Logo and Greeting phases never change the
index. -/
theorem C5_index_reset_amended (s : OLEDState) (now : ℚ) :
    (s.cycle_state = 3 → now - s.cycle_state_start_time ≥ s.info_duration →
      (cycleStep s now).1.cycle_state = 0 ∧
      (cycleStep s now).1.last_cycle_time = now ∧
      (cycleStep s now).1.cycle_state_start_time = now ∧
      (cycleStep s now).1.page_index = s.page_index) ∧
    (s.cycle_state = 2 → now - s.cycle_state_start_time ≥ s.server_info_duration →
      (cycleStep s now).1.cycle_state = 3 ∧
      (cycleStep s now).1.page_index = 0) ∧
    (s.cycle_state = 0 → (cycleStep s now).1.page_index = s.page_index) ∧
    (s.cycle_state = 1 → (cycleStep s now).1.page_index = s.page_index) := by
  refine ⟨?_, ?_, ?_, ?_⟩
  · intro h3 hge
    rw [cycleStep_info_advance s now h3 hge]
    exact ⟨rfl, rfl, rfl, rfl⟩
  · intro h2 hge
    rw [cycleStep_server_advance s now h2 hge]
    exact ⟨rfl, rfl⟩
  · intro h0
    exact cycleStep_page_index_state0 s now h0
  · intro h1
    exact cycleStep_page_index_state1 s now h1

/-- C5 (witness): concrete Info→Logo and ServerInfo→Info transitions. -/
theorem C5_index_reset_amended_witness :
    (cycleStep (infoPhaseState 2) 8).1.cycle_state = 0 ∧
    (cycleStep (infoPhaseState 2) 8).1.page_index = 2 ∧
    (cycleStep (infoPhaseState 2) 8).1.last_cycle_time = 8 ∧
    (cycleStep (serverPhaseState 2) 5).1.cycle_state = 3 ∧
    (cycleStep (serverPhaseState 2) 5).1.page_index = 0 := by
  have hA := (C5_index_reset_amended (infoPhaseState 2) 8).1 rfl
    (by norm_num [infoPhaseState, defaultState])
  have hB := (C5_index_reset_amended (serverPhaseState 2) 5).2.1 rfl
    (by norm_num [serverPhaseState, defaultState])
  exact ⟨hA.1, hA.2.2.2, hA.2.1, hB.1, hB.2⟩

theorem cycleStep_other (s : OLEDState) (now : ℚ)
    (h0 : ¬ s.cycle_state = 0) (h1 : ¬ s.cycle_state = 1)
    (h2 : ¬ s.cycle_state = 2) (h3 : ¬ s.cycle_state = 3) :
    cycleStep s now = (s, []) := by
  simp [cycleStep, h0, h1, h2, h3]

/-- The cycle-phase evolution (`cycle_state` and
`cycle_state_start_time`) computed by one pass of the display-cycle
logic depends only on the phase, its timers and the configured
durations — not on `page_index`, `wake_start_time` or any other field. -/
theorem cycleStep_cycle_eq (sa sb : OLEDState) (now : ℚ)
    (h1 : sa.cycle_state = sb.cycle_state)
    (h2 : sa.last_cycle_time = sb.last_cycle_time)
    (h3 : sa.cycle_state_start_time = sb.cycle_state_start_time)
    (h4 : sa.cycle_interval = sb.cycle_interval)
    (h5 : sa.greeting_duration = sb.greeting_duration)
    (h6 : sa.server_info_duration = sb.server_info_duration)
    (h7 : sa.info_duration = sb.info_duration) :
    (cycleStep sa now).1.cycle_state = (cycleStep sb now).1.cycle_state ∧
    (cycleStep sa now).1.cycle_state_start_time
      = (cycleStep sb now).1.cycle_state_start_time := by
  by_cases hc0 : sb.cycle_state = 0
  · by_cases hA : now - sb.last_cycle_time ≥ sb.cycle_interval
    · rw [cycleStep_logo_advance sa now (h1.trans hc0) (by rw [h2, h4]; exact hA),
        cycleStep_logo_advance sb now hc0 hA]
      exact ⟨rfl, rfl⟩
    · have ha := cycleStep_logo_hold sa now (h1.trans hc0)
        (by rw [h2, h4]; exact hA)
      have hb := cycleStep_logo_hold sb now hc0 hA
      exact ⟨ha.1.trans hb.1.symm, ha.2.2.trans (h3.trans hb.2.2.symm)⟩
  · by_cases hc1 : sb.cycle_state = 1
    · by_cases hA : now - sb.cycle_state_start_time ≥ sb.greeting_duration
      · rw [cycleStep_greeting_advance sa now (h1.trans hc1)
            (by rw [h3, h5]; exact hA),
          cycleStep_greeting_advance sb now hc1 hA]
        exact ⟨rfl, rfl⟩
      · rw [cycleStep_greeting_hold sa now (h1.trans hc1)
            (by rw [h3, h5]; exact hA),
          cycleStep_greeting_hold sb now hc1 hA]
        exact ⟨h1, h3⟩
    · by_cases hc2 : sb.cycle_state = 2
      · by_cases hA : now - sb.cycle_state_start_time ≥ sb.server_info_duration
        · rw [cycleStep_server_advance sa now (h1.trans hc2)
              (by rw [h3, h6]; exact hA),
            cycleStep_server_advance sb now hc2 hA]
          exact ⟨rfl, rfl⟩
        · rw [cycleStep_server_hold sa now (h1.trans hc2)
              (by rw [h3, h6]; exact hA),
            cycleStep_server_hold sb now hc2 hA]
          exact ⟨h1, h3⟩
      · by_cases hc3 : sb.cycle_state = 3
        · by_cases hA : now - sb.cycle_state_start_time ≥ sb.info_duration
          · rw [cycleStep_info_advance sa now (h1.trans hc3)
                (by rw [h3, h7]; exact hA),
              cycleStep_info_advance sb now hc3 hA]
            exact ⟨rfl, rfl⟩
          · have ha := cycleStep_info_hold sa now (h1.trans hc3)
              (by rw [h3, h7]; exact hA)
            have hb := cycleStep_info_hold sb now hc3 hA
            exact ⟨ha.1.trans hb.1.symm, ha.2.1.trans (h3.trans hb.2.1.symm)⟩
        · rw [cycleStep_other sa now (by rw [h1]; exact hc0)
              (by rw [h1]; exact hc1) (by rw [h1]; exact hc2)
              (by rw [h1]; exact hc3),
            cycleStep_other sb now hc0 hc1 hc2 hc3]
          exact ⟨h1, h3⟩

/-- C6: when a single_click is pending at the start of a tick: if the
controller is Asleep, the button-handling step sets the wake flag,
consumes the event, resets `wake_start_time` to the current time, and
renders nothing and changes no page (the index and the current page are
untouched); if it is Awake, it advances the InfoPageSet index by one
modulo `len(info_pages)`, renders exactly that info page immediately,
resets `wake_start_time`, and leaves the cycle-phase elapsed-time
accounting untouched: `cycle_state` and `cycle_state_start_time` are
unchanged by the handler, and the display-cycle logic of the tick
computes the same `cycle_state` and `cycle_state_start_time` as it would
have without the click. -/
theorem C6_single_click (s : OLEDState) (now : ℚ)
    (hclick : s.button = ButtonEvent.single_click) :
    (s.wake_flag = false →
      handleButton s now
        = ({ s with wake_flag := true, button := ButtonEvent.none,
                    wake_start_time := now }, [])) ∧
    (s.wake_flag = true →
      handleButton s now
        = ({ s with page_index := (s.page_index + 1) % info_pages.length,
                    button := ButtonEvent.none, wake_start_time := now },
           [Action.infoPage ((s.page_index + 1) % info_pages.length)]) ∧
      (cycleStep (handleButton s now).1 now).1.cycle_state
        = (cycleStep s now).1.cycle_state ∧
      (cycleStep (handleButton s now).1 now).1.cycle_state_start_time
        = (cycleStep s now).1.cycle_state_start_time) := by
  constructor
  · intro hw
    simp [handleButton, hclick, hw]
  · intro hw
    have he : handleButton s now
        = ({ s with page_index := (s.page_index + 1) % info_pages.length,
                    button := ButtonEvent.none, wake_start_time := now },
           [Action.infoPage ((s.page_index + 1) % info_pages.length)]) := by
      simp [handleButton, hclick, hw]
    refine ⟨he, ?_, ?_⟩
    · rw [he]
      exact (cycleStep_cycle_eq _ s now (by rfl) (by rfl) (by rfl) (by rfl)
        (by rfl) (by rfl) (by rfl)).1
    · rw [he]
      exact (cycleStep_cycle_eq _ s now (by rfl) (by rfl) (by rfl) (by rfl)
        (by rfl) (by rfl) (by rfl)).2

/-- C6 (witness): a click while asleep wakes without touching the page
index; a click while awake advances the index from 0 to 1, renders info
page 1 immediately, and leaves the cycle evolution as without the
click. -/
theorem C6_single_click_witness :
    (handleButton asleepClickState 7).1.wake_flag = true ∧
    (handleButton asleepClickState 7).1.page_index = 0 ∧
    (handleButton asleepClickState 7).1.wake_start_time = 7 ∧
    (handleButton asleepClickState 7).2 = [] ∧
    (handleButton awakeClickState 7).1.page_index = 1 ∧
    (handleButton awakeClickState 7).2 = [Action.infoPage 1] ∧
    (cycleStep (handleButton awakeClickState 7).1 7).1.cycle_state
      = (cycleStep awakeClickState 7).1.cycle_state := by
  have hA := (C6_single_click asleepClickState 7 rfl).1 rfl
  have hB := (C6_single_click awakeClickState 7 rfl).2 rfl
  refine ⟨?_, ?_, ?_, ?_, ?_, ?_, hB.2.1⟩
  · rw [hA]
  · rw [hA]; decide
  · rw [hA]
  · rw [hA]
  · rw [hB.1]; decide
  · rw [hB.1]; decide

/-- C7: if `sleep_timeout = 0` an awake controller never falls asleep on
any tick, regardless of the elapsed time since `wake_start_time`; if
`sleep_timeout > 0`, an awake, unlatched controller with no pending
button event falls asleep on a tick exactly when
`now - wake_start_time > sleep_timeout`, and in that case the tick ends
by clearing the framebuffer and presenting the blank screen. -/
theorem C7_sleep_timeout (s : OLEDState) (now : ℚ) :
    (s.sleep_timeout = 0 → s.wake_flag = true →
      (tick s now).1.wake_flag = true) ∧
    (s.sleep_timeout > 0 → s.wake_flag = true →
     ¬ s.current_page = OLEDPage.POWER_OFF → s.button = ButtonEvent.none →
      ((tick s now).1.wake_flag = false
        ↔ now - s.wake_start_time > s.sleep_timeout) ∧
      (now - s.wake_start_time > s.sleep_timeout →
        (tick s now).2 = (cycleStep s now).2
          ++ [Action.clear, Action.display])) := by
  constructor
  · intro hz hw
    simp only [tick, sleepOp]
    split_ifs with hh1 hh2 hh3
    · exact handleButton_wake_flag_mono s now hw
    · exact handleButton_wake_flag_mono s now hw
    · rw [cycleStep_sleep_timeout, handleButton_sleep_timeout, hz] at hh3
      exact absurd hh3.1 (lt_irrefl 0)
    · rw [cycleStep_wake_flag]
      exact handleButton_wake_flag_mono s now hw
  · intro hpos hw hp hb
    have hbn := handleButton_none s now hb
    simp only [tick, hbn, sleepOp]
    rw [if_neg hp, if_neg (by simp [hw])]
    rw [cycleStep_sleep_timeout, cycleStep_wake_start_time]
    by_cases hcond : now - s.wake_start_time > s.sleep_timeout
    · rw [if_pos ⟨hpos, hcond⟩]
      refine ⟨by simp [hcond], fun _ => by simp⟩
    · rw [if_neg (by tauto)]
      constructor
      · rw [cycleStep_wake_flag, hw]
        simp [hcond]
      · intro h
        exact absurd h hcond

/-- C7 (witness): with the default `sleep_timeout = 0` the controller
stays awake after an arbitrarily late tick; with `sleep_timeout = 10` a
tick at 11 (wake_start_time 0) falls asleep and blanks the screen, while
a tick at 5 stays awake. -/
theorem C7_sleep_timeout_witness :
    (tick defaultState 1000000).1.wake_flag = true ∧
    (tick timeoutState 11).1.wake_flag = false ∧
    (tick timeoutState 11).2
      = (cycleStep timeoutState 11).2 ++ [Action.clear, Action.display] ∧
    (tick timeoutState 5).1.wake_flag = true := by
  have hA := (C7_sleep_timeout defaultState 1000000).1 rfl rfl
  have hB := (C7_sleep_timeout timeoutState 11).2
    (by norm_num [timeoutState, defaultState]) rfl (by decide) rfl
  have hC := (C7_sleep_timeout timeoutState 5).2
    (by norm_num [timeoutState, defaultState]) rfl (by decide) rfl
  refine ⟨hA, ?_, ?_, ?_⟩
  · exact hB.1.mpr (by norm_num [timeoutState, defaultState])
  · exact hB.2 (by norm_num [timeoutState, defaultState])
  · by_contra hfalse
    have : (tick timeoutState 5).1.wake_flag = false := by
      cases hwf : (tick timeoutState 5).1.wake_flag
      · rfl
      · exact absurd hwf hfalse
    have h5 : (5 : ℚ) - timeoutState.wake_start_time
        > timeoutState.sleep_timeout := hC.1.mp this
    norm_num [timeoutState, defaultState] at h5

theorem cycleStep_logo_draw (s : OLEDState) (now : ℚ)
    (h0 : s.cycle_state = 0) (hnd : s.logo_drawn = false) :
    (cycleStep s now).2
      = match s.logo_frame with
        | some f => [Action.drawLogo f]
        | none => [Action.drawTextLogo s.server_name] := by
  cases hlf : s.logo_frame <;>
    simp only [cycleStep, h0, hnd, hlf, eq_self_iff_true, if_true] <;>
    split_ifs <;> rfl

/-- C8: with the logo slot filled by the frame-store loader: when the
asset parsed to a non-empty frame sequence, the loader returns frame 0
and the Logo-phase render of a tick draws exactly that frame; when the
file is absent, malformed, or has no frames, the loader never lets the
failure escape — it returns `none` with a logged warning/error — and the
Logo-phase render falls back to drawing the server-name text page:
never an exception and never an empty render. -/
theorem C8_logo_fallback (a : FrameAsset) (s : OLEDState) (now : ℚ)
    (hlogo : s.logo_frame = (load_logo_frame a).1)
    (h0 : s.cycle_state = 0) (hnd : s.logo_drawn = false)
    (hb : s.button = ButtonEvent.none)
    (hp : ¬ s.current_page = OLEDPage.POWER_OFF)
    (hw : s.wake_flag = true) (hs : s.sleep_timeout = 0) :
    (∀ f rest, a = FrameAsset.frames (f :: rest) →
      (load_logo_frame a).1 = some f ∧
      (tick s now).2 = [Action.drawLogo f]) ∧
    (a = FrameAsset.absent ∨ a = FrameAsset.malformed
        ∨ a = FrameAsset.frames [] →
      (load_logo_frame a).1 = none ∧
      (tick s now).2 = [Action.drawTextLogo s.server_name]) ∧
    (a = FrameAsset.absent →
      (load_logo_frame a).2
        = [Action.logWarning "No logo frames file found"]) ∧
    (a = FrameAsset.malformed →
      (load_logo_frame a).2
        = [Action.logError "Failed to load logo frame"]) := by
  have ht := tick_awake_no_sleep s now hb hp hw hs
  have hd := cycleStep_logo_draw s now h0 hnd
  refine ⟨?_, ?_, ?_, ?_⟩
  · intro f rest ha
    subst ha
    have hl : (load_logo_frame (FrameAsset.frames (f :: rest))).1 = some f := rfl
    refine ⟨hl, ?_⟩
    rw [ht, hd, hlogo, hl]
  · intro ha
    have hl : (load_logo_frame a).1 = none := by
      rcases ha with hh | hh | hh <;> subst hh <;> rfl
    refine ⟨hl, ?_⟩
    rw [ht, hd, hlogo, hl]
  · intro hh; subst hh; rfl
  · intro hh; subst hh; rfl

/-- C8 (witness): loading a one-frame asset renders that frame in the
Logo phase; loading an absent asset yields the text fallback and a
logged warning. -/
theorem C8_logo_fallback_witness :
    (load_logo_frame sampleAsset).1 = some sampleFrame ∧
    (tick logoLoadedState 1).2 = [Action.drawLogo sampleFrame] ∧
    (load_logo_frame FrameAsset.absent).1 = none ∧
    (tick logoAbsentState 1).2
      = [Action.drawTextLogo logoAbsentState.server_name] ∧
    (load_logo_frame FrameAsset.absent).2
      = [Action.logWarning "No logo frames file found"] := by
  have hA := (C8_logo_fallback sampleAsset logoLoadedState 1 rfl rfl rfl rfl
    (by decide) rfl rfl).1 sampleFrame [] rfl
  have hB := C8_logo_fallback FrameAsset.absent logoAbsentState 1 rfl rfl rfl
    rfl (by decide) rfl rfl
  exact ⟨hA.1, hA.2, (hB.2.1 (Or.inl rfl)).1, (hB.2.1 (Or.inl rfl)).2,
    hB.2.2.1 rfl⟩

theorem runTicks_not_running (s : OLEDState) (ts : List ℚ)
    (h : s.running = false) : runTicks s ts = (s, []) := by
  cases ts with
  | nil => rfl
  | cons t ts => simp [runTicks, h]

/-- C9: `stop()` clears the running flag; the joined worker, observing
the cleared flag at its next iteration boundary, performs no further
tick and emits no further action (join semantics), and then — exactly
once — the final clear + present + power-down sequence runs, provided
the renderer exists and is ready (otherwise it is skipped entirely).
The whole output of `stop` is exactly that one sequence. -/
theorem C9_stop (ready : Bool) (s : OLEDState) (pending : List ℚ) :
    stop ready s pending = ({ s with running := false }, stopActions ready) ∧
    runTicks { s with running := false } pending
      = ({ s with running := false }, []) ∧
    (stop true s pending).2 = [Action.clear, Action.display, Action.off] ∧
    (stop ready s pending).2.count Action.off = (if ready then 1 else 0) := by
  have h1 : runTicks { s with running := false } pending
      = ({ s with running := false }, []) := runTicks_not_running _ _ rfl
  refine ⟨?_, h1, ?_, ?_⟩
  · simp [stop, h1]
  · simp [stop, h1, stopActions]
  · cases ready <;> simp [stop, h1, stopActions]

theorem handleButton_page_index (s : OLEDState) (now : ℚ) :
    (handleButton s now).1.page_index = s.page_index ∨
    (handleButton s now).1.page_index
      = (s.page_index + 1) % info_pages.length := by
  unfold handleButton; split_ifs <;> simp

theorem handleButton_actions (s : OLEDState) (now : ℚ) :
    (handleButton s now).2 = [] ∨
    (handleButton s now).2
      = [Action.infoPage ((s.page_index + 1) % info_pages.length)] := by
  unfold handleButton; split_ifs <;> simp

theorem cycleStep_page_index (s : OLEDState) (now : ℚ) :
    (cycleStep s now).1.page_index = s.page_index ∨
    (cycleStep s now).1.page_index = 0 := by
  simp only [cycleStep]
  cases hlf : s.logo_frame <;> split_ifs <;> simp

theorem cycleStep_actions (s : OLEDState) (now : ℚ) :
    (cycleStep s now).2 = [] ∨
    (∃ f, (cycleStep s now).2 = [Action.drawLogo f]) ∨
    (cycleStep s now).2 = [Action.drawTextLogo s.server_name] ∨
    (cycleStep s now).2 = [Action.drawGreeting] ∨
    (cycleStep s now).2 = [Action.drawServerInfo] ∨
    (cycleStep s now).2 = [Action.infoPage s.page_index] := by
  simp only [cycleStep]
  cases hlf : s.logo_frame <;> split_ifs <;> simp

theorem info_page_at_isSome (i : Nat) (h : i < info_pages.length) :
    (info_page_at i).isSome := by
  simp [info_page_at, List.get?_eq_getElem?, List.getElem?_eq_getElem h]

/-- C10: if the info-page index is in range (`< len(info_pages) = 3`),
it stays in range after any tick; a tick only ever leaves it unchanged,
advances it by one modulo the page count (single_click), or resets it to
0 (entering the Info phase); every `info_pages[i]` dispatch a tick emits
is in bounds; and the loop initialises the index to 0. -/
theorem C10_page_index_in_range (s : OLEDState) (now t0 : ℚ)
    (h : s.page_index < info_pages.length) :
    (tick s now).1.page_index < info_pages.length ∧
    ((tick s now).1.page_index = s.page_index ∨
     (tick s now).1.page_index = (s.page_index + 1) % info_pages.length ∨
     (tick s now).1.page_index = 0) ∧
    (∀ i, Action.infoPage i ∈ (tick s now).2 → (info_page_at i).isSome) ∧
    (loop true s t0 []).1.page_index = 0 := by
  have hmod : (s.page_index + 1) % info_pages.length < info_pages.length :=
    Nat.mod_lt _ (by norm_num [info_pages])
  have hbidx := handleButton_page_index s now
  have hbact := handleButton_actions s now
  have hcidx := cycleStep_page_index (handleButton s now).1 now
  have hcact := cycleStep_actions (handleButton s now).1 now
  have hidx : (tick s now).1.page_index = (handleButton s now).1.page_index ∨
      (tick s now).1.page_index
        = (cycleStep (handleButton s now).1 now).1.page_index := by
    simp only [tick, sleepOp]
    split_ifs <;> simp
  have hact : ∀ i, Action.infoPage i ∈ (tick s now).2 →
      Action.infoPage i ∈ (handleButton s now).2 ∨
      Action.infoPage i ∈ (cycleStep (handleButton s now).1 now).2 := by
    simp only [tick, sleepOp]
    split_ifs <;> intro i hi <;> simp_all [List.mem_append]
  have hall : (tick s now).1.page_index = s.page_index ∨
      (tick s now).1.page_index = (s.page_index + 1) % info_pages.length ∨
      (tick s now).1.page_index = 0 := by
    rcases hidx with he | he
    · rcases hbidx with hh | hh
      · exact Or.inl (he.trans hh)
      · exact Or.inr (Or.inl (he.trans hh))
    · rcases hcidx with hh | hh
      · rcases hbidx with hg | hg
        · exact Or.inl ((he.trans hh).trans hg)
        · exact Or.inr (Or.inl ((he.trans hh).trans hg))
      · exact Or.inr (Or.inr (he.trans hh))
  refine ⟨?_, hall, ?_, ?_⟩
  · rcases hall with hh | hh | hh <;> rw [hh]
    · exact h
    · exact hmod
    · norm_num [info_pages]
  · intro i hi
    rcases hact i hi with hin | hin
    · rcases hbact with hh | hh
      · rw [hh] at hin; simp at hin
      · rw [hh] at hin
        simp at hin
        subst hin
        exact info_page_at_isSome _ hmod
    · rcases hcact with hh | ⟨f, hh⟩ | hh | hh | hh | hh <;> rw [hh] at hin <;>
        simp at hin
      subst hin
      rcases hbidx with hg | hg <;> rw [hg]
      · exact info_page_at_isSome _ h
      · exact info_page_at_isSome _ hmod
  · rfl

/-- C10 (witness): concrete in-range tick from the default state. -/
theorem C10_page_index_in_range_witness :
    defaultState.page_index < info_pages.length ∧
    (tick defaultState 1).1.page_index < info_pages.length ∧
    (loop true defaultState 0 []).1.page_index = 0 := by
  have hA := C10_page_index_in_range defaultState 1 0 (by decide)
  exact ⟨by decide, hA.1, hA.2.2.2⟩

end PmAutoOled
